import Mathlib

/-!
Shallow embedding of the schedule / test-run logic of the
`aws-lambda-form-testing` repository (the Lambda handlers under
`src/lambda/src/handlers/`), together with theorems settling the frozen
claims about that code.

The definitions below are translated directly from the JavaScript source:
* `updateScheduleStats`  — the stats update inside `updateScheduleWithResult`
  (`run-scheduled-test.js`)
* `isValidCronExpression`, `isValidFrequency`, `getCronExpression`,
  `calculateNextRunTime` — from `schedule-test.js`
* the create-schedule handler (`schedule-test.js`), the delete-schedule
  handler (`delete-schedule.js`) and the run-test executor (`run-test.js`,
  whose field/submission logic is shared verbatim with the `runTest`
  function of `run-scheduled-test.js`).

External effects (DynamoDB, EventBridge, S3, the headless browser) are
modelled by explicit environments recording which call succeeds, and
handlers return the trace of calls they issued plus the resulting record
state.
-/

namespace FormTesting

/-! ## Schedule stats (run-scheduled-test.js, `updateScheduleWithResult`) -/

structure Stats where
  total : Nat
  success : Nat
  failed : Nat
deriving DecidableEq, Repr

/-- The stats mutation performed by `updateScheduleWithResult` in
`run-scheduled-test.js`:
`stats.total++; if (status === 'success') stats.success++;
else if (status === 'failed') stats.failed++;`.
The source also substitutes `{total:0,success:0,failed:0}` when the stored
schedule has no `stats` field (`schedule.stats || {...}`). -/
def updateScheduleStats (stats0 : Option Stats) (status : String) : Stats :=
  let stats := stats0.getD ⟨0, 0, 0⟩
  let stats := { stats with total := stats.total + 1 }
  if status = "success" then { stats with success := stats.success + 1 }
  else if status = "failed" then { stats with failed := stats.failed + 1 }
  else stats

/-- The `stats` object stored by `scheduleItem` in `schedule-test.js` at
schedule creation: `stats: { total: 0, success: 0, failed: 0 }`. -/
def createdScheduleStats : Stats := ⟨0, 0, 0⟩

/-! ## Cron validation (schedule-test.js, `isValidCronExpression`) -/

/-- JavaScript `String.prototype.split` with a single-character separator:
never drops empty pieces, and splitting the empty string yields `[""]`. -/
def splitChar (sep : Char) : List Char → List (List Char)
  | [] => [[]]
  | c :: rest =>
    let r := splitChar sep rest
    if c = sep then [] :: r
    else
      match r with
      | [] => [[c]]
      | h :: t => (c :: h) :: t

/-- Character class of the regex `/^[0-9\-\,\/\*]+$/` used for the
minute, hour, month and year fields. -/
def inBaseClass (c : Char) : Bool :=
  c.isDigit || c = '-' || c = ',' || c = '/' || c = '*'

/-- Character class of `/^[0-9\-\,\/\*\?LW]+$/` (day-of-month field). -/
def inDomClass (c : Char) : Bool :=
  inBaseClass c || c = '?' || c = 'L' || c = 'W'

/-- Character class of the first alternative of
`/^[0-9\-\,\/\*\?L#]+$|^(MON|TUE|WED|THU|FRI|SAT|SUN)$/` (day-of-week). -/
def inDowClass (c : Char) : Bool :=
  inBaseClass c || c = '?' || c = 'L' || c = '#'

/-- `/^[0-9\-\,\/\*]+$/` : one or more characters of the base class. -/
def matchesBase (s : List Char) : Bool :=
  !s.isEmpty && s.all inBaseClass

/-- `/^[0-9\-\,\/\*\?LW]+$/` on the day-of-month field. -/
def matchesDom (s : List Char) : Bool :=
  !s.isEmpty && s.all inDomClass

/-- `/^[0-9\-\,\/\*\?L#]+$|^(MON|TUE|WED|THU|FRI|SAT|SUN)$/` on the
day-of-week field. -/
def matchesDow (s : List Char) : Bool :=
  (!s.isEmpty && s.all inDowClass) ||
    s = "MON".toList || s = "TUE".toList || s = "WED".toList ||
    s = "THU".toList || s = "FRI".toList || s = "SAT".toList ||
    s = "SUN".toList

/-- `isValidCronExpression` from `schedule-test.js`: split on `' '`, demand
exactly 6 parts, check each part against its per-position pattern, then
reject only when `parts[2] !== '?' && parts[4] !== '?'`. -/
def isValidCronExpression (cronExpression : String) : Bool :=
  let parts := splitChar ' ' cronExpression.toList
  if parts.length ≠ 6 then false
  else if !(matchesBase (parts.getD 0 []) && matchesBase (parts.getD 1 []) &&
            matchesDom (parts.getD 2 []) && matchesBase (parts.getD 3 []) &&
            matchesDow (parts.getD 4 []) && matchesBase (parts.getD 5 [])) then
    false
  else if parts.getD 2 [] ≠ ['?'] && parts.getD 4 [] ≠ ['?'] then false
  else true

/-! ## A JS `Date` model

A `Date` is a point in time, stored as a day count since the Unix epoch
plus the milliseconds elapsed within that day.  JS dates are a single
millisecond count; the pair form is equivalent (via `toMs`/`ofMs`) and makes
the calendar operations of `schedule-test.js` (`setHours`, `setDate`,
`getDay`) direct.  The handlers use local time; the model identifies local
time with the timeline, as the spec does. -/

structure Date where
  day : Int
  msOfDay : Int
deriving DecidableEq, Repr

def Date.toMs (d : Date) : Int := d.day * 86400000 + d.msOfDay

def Date.ofMs (ms : Int) : Date := ⟨ms / 86400000, ms % 86400000⟩

/-- JS `date.setHours(h, m, 0, 0)`: keep the civil day, set the time of day,
normalising any overflow into the day count (as JS does). -/
def Date.setHours (d : Date) (h m : Int) : Date :=
  Date.ofMs (d.day * 86400000 + (h * 60 + m) * 60000)

/-- JS `date.setDate(date.getDate() + k)`: shift by `k` civil days. -/
def Date.addDays (d : Date) (k : Int) : Date := { d with day := d.day + k }

/-- JS `date.getDay()`: 0 = Sunday … 6 = Saturday.  1970-01-01 (day 0) was a
Thursday, hence the offset 4. -/
def Date.getDay (d : Date) : Int := (d.day + 4) % 7

/-- JS `date.getHours()` for an in-range `msOfDay`. -/
def Date.getHours (d : Date) : Int := d.msOfDay / 3600000

/-- Conversion from a civil date to days since the Unix epoch (standard
civil-from-days inversion); used only to state concrete instances such as
2025-01-01.  All intermediate values are non-negative for CE years. -/
def daysFromCivil (y0 m d : Int) : Int :=
  let y := if m ≤ 2 then y0 - 1 else y0
  let era := y / 400
  let yoe := y - era * 400
  let mp := (m + 9) % 12
  let doy := (153 * mp + 2) / 5 + d - 1
  let doe := yoe * 365 + yoe / 4 - yoe / 100 + doy
  era * 146097 + doe - 719468

/-- Days since epoch back to a civil `(year, month, day)` triple. -/
def civilFromDays (z0 : Int) : Int × Int × Int :=
  let z := z0 + 719468
  let era := z / 146097
  let doe := z - era * 146097
  let yoe := (doe - doe / 1460 + doe / 36524 - doe / 146096) / 365
  let y := yoe + era * 400
  let doy := doe - (365 * yoe + yoe / 4 - yoe / 100)
  let mp := (5 * doy + 2) / 153
  let d := doy - (153 * mp + 2) / 5 + 1
  let m := if mp < 10 then mp + 3 else mp - 9
  (if m ≤ 2 then y + 1 else y, m, d)

/-! ## String helpers mirroring the JS methods used by
`calculateNextRunTime` -/

/-- Whether `pre` is a prefix of `l` (used for substring search). -/
def startsWithL : List Char → List Char → Bool
  | [], _ => true
  | _ :: _, [] => false
  | a :: as, b :: bs => a = b && startsWithL as bs

/-- JS `haystack.includes(needle)`. -/
def containsSub (needle : List Char) : List Char → Bool
  | [] => needle.isEmpty
  | c :: rest => startsWithL needle (c :: rest) || containsSub needle rest

/-- JS `haystack.replace(needle, '')` with a plain-string pattern: removes
the first occurrence only. -/
def removeFirst (needle : List Char) : List Char → List Char
  | [] => []
  | c :: rest =>
    if startsWithL needle (c :: rest) && !needle.isEmpty then
      (c :: rest).drop needle.length
    else c :: removeFirst needle rest

/-- Leading decimal digits of a string. -/
def takeDigits : List Char → List Char
  | [] => []
  | c :: rest => if c.isDigit then c :: takeDigits rest else []

def digitsVal : List Char → Nat → Nat
  | [], acc => acc
  | c :: rest, acc => digitsVal rest (acc * 10 + (c.toNat - 48))

/-- JS `parseInt(s, 10)` restricted to the strings that occur here
(no sign, no leading whitespace): the value of the leading digit run,
`none` meaning `NaN`. -/
def parseIntJs (s : List Char) : Option Nat :=
  match takeDigits s with
  | [] => none
  | ds => some (digitsVal ds 0)

/-- JS `Number(s)` restricted to the inputs produced by splitting a
`"HH:MM"` string on `':'`: the empty string is 0, a digit string is its
value, anything else (including a missing piece) is `NaN` (`none`). -/
def numberJs : Option (List Char) → Option Nat
  | none => none
  | some [] => some 0
  | some s => if s.all Char.isDigit then some (digitsVal s 0) else none

/-! ## `calculateNextRunTime` (schedule-test.js) -/

/-- `calculateNextRunTime(cronExpression, frequency)` from
`schedule-test.js`, with the reference instant `now` passed explicitly.
`none` models a JS `Invalid Date` (produced when `parseInt` yields `NaN`
for the cron minute/hour; note an invalid date compares `<=` as false, so
the daily branch returns it un-advanced). -/
def calculateNextRunTime (cronExpression : String) (frequency : String)
    (now : Date) : Option Date :=
  let cron := cronExpression.toList
  let hasWrapper := containsSub "cron(".toList cron
  let parts := splitChar ' ' (removeFirst ")".toList (removeFirst "cron(".toList cron))
  let minute? := (parts.get? 0).bind parseIntJs
  let hour? := (parts.get? 1).bind parseIntJs
  if frequency = "hourly" then
    -- nextRunTime.setHours(now.getHours() + 1, 0, 0, 0)
    some (now.setHours (now.getHours + 1) 0)
  else if frequency = "daily" then
    if hasWrapper then
      match minute?, hour? with
      | some minute, some hour =>
        let t := now.setHours hour minute
        if t.toMs ≤ now.toMs then some (t.addDays 1) else some t
      | _, _ => none
    else
      some ((now.addDays 1).setHours 0 0)
  else if frequency = "weekly" then
    let daysUntilMonday := 1 - now.getDay
    let delta := if daysUntilMonday ≤ 0 then 7 + daysUntilMonday else daysUntilMonday
    let base := now.addDays delta
    if hasWrapper then
      match minute?, hour? with
      | some minute, some hour => some (base.setHours hour minute)
      | _, _ => none
    else
      some (base.setHours 0 0)
  else if frequency = "monthly" then
    -- nextRunTime.setMonth(now.getMonth() + 1, 1)
    let c := civilFromDays now.day
    let yNext := if c.2.1 = 12 then c.1 + 1 else c.1
    let mNext := if c.2.1 = 12 then 1 else c.2.1 + 1
    let base : Date := ⟨daysFromCivil yNext mNext 1, now.msOfDay⟩
    if hasWrapper then
      match minute?, hour? with
      | some minute, some hour => some (base.setHours hour minute)
      | _, _ => none
    else
      some (base.setHours 0 0)
  else if frequency = "custom" then
    some (Date.ofMs (now.toMs + 24 * 60 * 60 * 1000))
  else
    some (Date.ofMs (now.toMs + 24 * 60 * 60 * 1000))

/-! ## `isValidFrequency` and `getCronExpression` (schedule-test.js) -/

/-- `isValidFrequency` from `schedule-test.js`.  (When `frequency` is
`'custom'` and `customValue` is `undefined` the JS function throws a
TypeError inside `isValidCronExpression`; the handler model below routes
that case to its 500 branch before calling this function.) -/
def isValidFrequency (frequency : String) (customValue : Option String) : Bool :=
  if !(frequency = "hourly" || frequency = "daily" || frequency = "weekly" ||
       frequency = "monthly" || frequency = "custom") then false
  else if frequency = "custom" && !isValidCronExpression (customValue.getD "") then
    false
  else true

/-- Rendering of a JS number interpolated into a template string;
`none` (NaN) prints as `"NaN"`. -/
def numToString : Option Nat → String
  | some n => toString n
  | none => "NaN"

/-- `getCronExpression` from `schedule-test.js`:
`const time = specificTime || '00:00'; const [hour, minute] =
time.split(':').map(Number);` followed by the frequency switch. -/
def getCronExpression (frequency : String) (customValue : Option String)
    (specificTime : Option String) : String :=
  let time := match specificTime with
    | some t => if t = "" then "00:00" else t
    | none => "00:00"
  let pieces := splitChar ':' time.toList
  let hour := numberJs (pieces.get? 0)
  let minute := numberJs (pieces.get? 1)
  if frequency = "hourly" then "cron(0 * * * ? *)"
  else if frequency = "daily" then
    "cron(" ++ numToString minute ++ " " ++ numToString hour ++ " * * ? *)"
  else if frequency = "weekly" then
    "cron(" ++ numToString minute ++ " " ++ numToString hour ++ " ? * MON *)"
  else if frequency = "monthly" then
    "cron(" ++ numToString minute ++ " " ++ numToString hour ++ " 1 * ? *)"
  else if frequency = "custom" then customValue.getD ""
  else "cron(0 0 * * ? *)"

/-! ## The create-schedule handler (schedule-test.js) -/

structure Schedule where
  name : String
  url : String
  frequency : String
  cronExpression : String
  active : Bool
  lastRunTime : Option Date := none
  nextRunTime : Option Date := none
  ruleArn : Option String := none
  runs : List String := []
  stats : Stats := createdScheduleStats
deriving DecidableEq, Repr

/-- The external calls the create handler can issue, in program order. -/
inductive AwsCall
  | putItem
  | putRule
  | putTargets
  | updateRuleArn
  | updateNextRun
deriving DecidableEq, Repr

/-- Which external calls succeed during one invocation. -/
structure AwsEnv where
  putItemOk : Bool
  putRuleOk : Bool
  putTargetsOk : Bool
  updateRuleArnOk : Bool
  updateNextRunOk : Bool
deriving DecidableEq, Repr

/-- The parsed request body of the create handler; `Option` marks fields a
JS caller may omit, and `active` already carries the destructuring default
`active = true`. -/
structure ScheduleInput where
  name : Option String
  url : Option String
  hasFormConfig : Bool
  hasUserData : Bool
  frequency : Option String
  customCronExpression : Option String
  specificTime : Option String
  active : Bool
deriving DecidableEq, Repr

/-- JS truthiness of an optional string (absent and `""` are falsy). -/
def truthyStr : Option String → Bool
  | none => false
  | some s => !(s = "")

structure CreateResult where
  statusCode : Nat
  calls : List AwsCall
  stored : Option Schedule
deriving DecidableEq, Repr

/-- The create-schedule handler of `schedule-test.js`: validation, the
DynamoDB `put` of `scheduleItem`, and — only when `active` — the
EventBridge rule creation, target attachment, `ruleArn` update and
`nextRunTime` update.  `stored` is the record state left in the table.
A failing call throws into the handler's catch (500); the record keeps
whatever updates were applied before the failure.  `if (nextRunTime)` in
the source is always taken (a JS `Date` object is truthy even when
invalid); an invalid date (`none`) then throws in `toISOString` before the
update call is issued. -/
def createScheduleModel (input : ScheduleInput) (env : AwsEnv) (now : Date) :
    CreateResult :=
  if !(truthyStr input.name && truthyStr input.url && input.hasFormConfig &&
       input.hasUserData && truthyStr input.frequency) then
    ⟨400, [], none⟩
  else
    let frequency := input.frequency.getD ""
    if frequency = "custom" && input.customCronExpression = none then
      ⟨500, [], none⟩
    else if !isValidFrequency frequency input.customCronExpression then
      ⟨400, [], none⟩
    else
      let cronExpression :=
        getCronExpression frequency input.customCronExpression input.specificTime
      let item : Schedule :=
        { name := input.name.getD "", url := input.url.getD "",
          frequency, cronExpression, active := input.active }
      if !env.putItemOk then ⟨500, [.putItem], none⟩
      else if input.active then
        if !env.putRuleOk then ⟨500, [.putItem, .putRule], some item⟩
        else if !env.putTargetsOk then
          ⟨500, [.putItem, .putRule, .putTargets], some item⟩
        else if !env.updateRuleArnOk then
          ⟨500, [.putItem, .putRule, .putTargets, .updateRuleArn], some item⟩
        else
          let item := { item with ruleArn := some "form-test-schedule-rule-arn" }
          match calculateNextRunTime cronExpression frequency now with
          | none =>
            ⟨500, [.putItem, .putRule, .putTargets, .updateRuleArn], some item⟩
          | some t =>
            if !env.updateNextRunOk then
              ⟨500, [.putItem, .putRule, .putTargets, .updateRuleArn,
                     .updateNextRun], some item⟩
            else
              ⟨201, [.putItem, .putRule, .putTargets, .updateRuleArn,
                     .updateNextRun], some { item with nextRunTime := some t }⟩
      else ⟨201, [.putItem], some item⟩

/-! ## The delete-schedule handler (delete-schedule.js) -/

inductive DeleteCall
  | getItem
  | listTargets
  | removeTargets
  | deleteRule
  | deleteItem
deriving DecidableEq, Repr

structure DeleteEnv where
  getOk : Bool
  listTargetsOk : Bool
  removeTargetsOk : Bool
  deleteRuleOk : Bool
  deleteItemOk : Bool
  ruleTargets : List String
deriving DecidableEq, Repr

structure DeleteResult where
  statusCode : Nat
  calls : List DeleteCall
  recordDeleted : Bool
deriving DecidableEq, Repr

/-- The delete-schedule handler of `delete-schedule.js`.  `stored` is the
schedule record under the given id (`none` covers both a missing item and a
non-`schedule` item, which the source both answers with 404).  The
EventBridge cleanup (`listTargetsByRule`, `removeTargets` when targets
exist, `deleteRule`) runs inside its own try/catch: the first failing call
aborts the rest of the cleanup, is logged and swallowed, and the DynamoDB
`delete` still runs. -/
def deleteScheduleModel (scheduleId : Option String) (stored : Option Schedule)
    (env : DeleteEnv) : DeleteResult :=
  match scheduleId with
  | none => ⟨400, [], false⟩
  | some _ =>
    if !env.getOk then ⟨500, [.getItem], false⟩
    else
      match stored with
      | none => ⟨404, [.getItem], false⟩
      | some schedule =>
        let ebCalls : List DeleteCall :=
          if (schedule.ruleArn).isSome then
            if !env.listTargetsOk then [.listTargets]
            else if !env.ruleTargets.isEmpty then
              if !env.removeTargetsOk then [.listTargets, .removeTargets]
              else [.listTargets, .removeTargets, .deleteRule]
            else [.listTargets, .deleteRule]
          else []
        let calls := DeleteCall.getItem :: ebCalls
        if !env.deleteItemOk then ⟨500, calls ++ [.deleteItem], false⟩
        else ⟨200, calls ++ [.deleteItem], true⟩

/-! ## The test-run executor (run-test.js; the field-resolution, dispatch
and submission-wait logic is textually identical inside `runTest` of
run-scheduled-test.js) -/

/-- The JS values that appear as form fill data. -/
inductive JsValue
  | str (s : String)
  | bool (b : Bool)
  | num (n : Int)
deriving DecidableEq, Repr

/-- JS truthiness of `userData[field.name]` (absent = `undefined`). -/
def truthy : Option JsValue → Bool
  | none => false
  | some (JsValue.str s) => !(s = "")
  | some (JsValue.bool b) => b
  | some (JsValue.num n) => !(n = 0)

/-- A JS object used as a string-keyed map (keys unique). -/
abbrev UserData := List (String × JsValue)

def lookupUD (ud : UserData) (k : String) : Option JsValue :=
  match ud with
  | [] => none
  | (k2, v) :: rest => if k2 = k then some v else lookupUD rest k

/-- One entry of `formConfig.fields`.  `fieldType` embeds the source's
`type` property. -/
structure FormField where
  name : String
  fieldType : String
  selector : String
  required : Bool
  defaultValue : Option JsValue
deriving DecidableEq, Repr

structure SuccessIndicator where
  selector : String
  timeout : Option Nat
deriving DecidableEq, Repr

structure FormConfig where
  fields : List FormField
  submitButtonSelector : String
  successIndicator : Option SuccessIndicator
deriving DecidableEq, Repr

/-- `const value = userData[field.name] || field.defaultValue;` -/
def resolveFieldValue (ud : UserData) (f : FormField) : Option JsValue :=
  let uv := lookupUD ud f.name
  if truthy uv then uv else f.defaultValue

/-- The page operation selected by the `switch (field.type)` of
run-test.js. -/
inductive PageAction
  | fill (selector : String)
  | selectOption (selector : String)
  | check (selector : String)
  | uncheck (selector : String)
  | checkboxNoop
  | radio (selector : String)
  | fileNote
  | unsupportedNote
deriving DecidableEq, Repr

def fieldAction (f : FormField) (value : Option JsValue) : PageAction :=
  if f.fieldType = "text" || f.fieldType = "email" ||
     f.fieldType = "password" || f.fieldType = "number" ||
     f.fieldType = "tel" then .fill f.selector
  else if f.fieldType = "select" then .selectOption f.selector
  else if f.fieldType = "checkbox" then
    -- `if (value === true) check; else if (value === false) uncheck;`
    if value = some (JsValue.bool true) then .check f.selector
    else if value = some (JsValue.bool false) then .uncheck f.selector
    else .checkboxNoop
  else if f.fieldType = "radio" then .radio f.selector
  else if f.fieldType = "file" then .fileNote
  else .unsupportedNote

/-- Whether the action performs a browser call (which may throw). -/
def actionIsPageCall : PageAction → Bool
  | .fill _ => true
  | .selectOption _ => true
  | .check _ => true
  | .uncheck _ => true
  | .radio _ => true
  | _ => false

/-- The log lines the switch appends on a successful dispatch. -/
def actionLogs (f : FormField) : PageAction → List String
  | .fill _ => ["Filled " ++ f.fieldType ++ " field: " ++ f.name]
  | .selectOption _ => ["Selected option in " ++ f.name]
  | .check _ => ["Checked checkbox: " ++ f.name]
  | .uncheck _ => ["Unchecked checkbox: " ++ f.name]
  | .checkboxNoop => []
  | .radio _ => ["Selected radio option for " ++ f.name]
  | .fileNote => ["File upload not fully supported: " ++ f.name]
  | .unsupportedNote =>
      ["Unsupported field type: " ++ f.fieldType ++ " for " ++ f.name]

inductive RunStatus
  | running
  | success
  | failed
  | completed
deriving DecidableEq, Repr

structure Metrics where
  fieldsProcessed : Nat
  errorsCount : Nat
deriving DecidableEq, Repr

/-- The mutable `testResult` object of run-test.js, restricted to the
observable parts the claims speak about. -/
structure TestResult where
  status : RunStatus
  errors : List String
  logs : List String
  screenshots : List (String × String)
  metrics : Option Metrics
  hasEndTime : Bool
deriving DecidableEq, Repr

/-- Which browser / S3 operations succeed during one run. -/
structure BrowserEnv where
  gotoOk : Bool
  screenshotOk : String → Bool
  actionOk : String → Bool
  clickOk : Bool
  successAppears : Bool
  networkIdleOk : Bool

/-- Take and store a screenshot for `stage`; a failure throws, carrying the
state accumulated so far. -/
def shoot (env : BrowserEnv) (stage : String) (r : TestResult) :
    Except (String × TestResult) TestResult :=
  if env.screenshotOk stage then
    .ok { r with screenshots := r.screenshots ++ [(stage, stage ++ ".png")] }
  else
    .error ("screenshot failed at " ++ stage, r)

/-- The per-field body with its local try/catch.  The catch appends the
error entry `Error processing field <name>: <msg>` and a log line, then
takes an `error-<name>` screenshot; only a failure of that screenshot lets
an exception escape to the run's top-level catch. -/
def processField (env : BrowserEnv) (ud : UserData) (r0 : TestResult)
    (f : FormField) : Except (String × TestResult) TestResult :=
  let r := { r0 with logs := r0.logs ++ ["Processing field: " ++ f.name] }
  let value := resolveFieldValue ud f
  let inner : Except String TestResult :=
    if !truthy value && f.required then
      .error ("Missing required field: " ++ f.name)
    else
      let a := fieldAction f value
      if actionIsPageCall a && !env.actionOk f.name then
        .error ("page action failed on " ++ f.selector)
      else
        .ok { r with logs := r.logs ++ actionLogs f a }
  match inner with
  | .ok r1 => .ok r1
  | .error msg =>
    let r1 := { r with
      errors := r.errors ++ ["Error processing field " ++ f.name ++ ": " ++ msg],
      logs := r.logs ++ ["Failed to process field: " ++ f.name ++ " - " ++ msg] }
    shoot env ("error-" ++ f.name) r1

/-- `for (const field of formConfig.fields) { ... }` -/
def processFields (env : BrowserEnv) (ud : UserData) :
    TestResult → List FormField → Except (String × TestResult) TestResult
  | r, [] => .ok r
  | r, f :: rest =>
    match processField env ud r f with
    | .ok r1 => processFields env ud r1 rest
    | .error e => .error e

/-- The post-submission wait.  With a `successIndicator` the
`waitForSelector` is wrapped in a local try/catch (timeout ⇒ status
`failed`, recorded error).  Without one, `waitForLoadState('networkidle')`
is NOT wrapped: a timeout escapes to the top-level catch. -/
def submitWait (env : BrowserEnv) (cfg : FormConfig) (r : TestResult) :
    Except (String × TestResult) TestResult :=
  match cfg.successIndicator with
  | some _ =>
    if env.successAppears then
      .ok { r with logs := r.logs ++ ["Form submitted successfully"],
                   status := .success }
    else
      .ok { r with
        logs := r.logs ++ ["Timeout waiting for success indicator"],
        errors := r.errors ++
          ["Form submission success indicator not found: timeout"],
        status := .failed }
  | none =>
    if env.networkIdleOk then
      .ok { r with
        logs := r.logs ++ ["Form submitted and page reached network idle state"],
        status := .completed }
    else
      .error ("Timeout exceeded while waiting for network idle", r)

/-- The body of the handler's `try` block, from navigation to metrics. -/
def runBody (env : BrowserEnv) (url : String) (cfg : FormConfig)
    (ud : UserData) : Except (String × TestResult) TestResult :=
  let r : TestResult :=
    { status := .running, errors := [], logs := ["Test started"],
      screenshots := [], metrics := none, hasEndTime := false }
  let r := { r with logs := r.logs ++ ["Navigating to " ++ url] }
  if !env.gotoOk then .error ("Navigation timeout", r)
  else
    match shoot env "initial" r with
    | .error e => .error e
    | .ok r =>
      let r := { r with logs := r.logs ++ ["Took initial screenshot"] }
      match processFields env ud r cfg.fields with
      | .error e => .error e
      | .ok r =>
        match shoot env "preSubmit" r with
        | .error e => .error e
        | .ok r =>
          let r := { r with
            logs := r.logs ++ ["Took pre-submission screenshot",
                               "Submitting form"] }
          if !env.clickOk then .error ("click failed", r)
          else
            match submitWait env cfg r with
            | .error e => .error e
            | .ok r =>
              match shoot env "final" r with
              | .error e => .error e
              | .ok r =>
                let r := { r with logs := r.logs ++ ["Took final screenshot"] }
                .ok { r with
                  metrics := some ⟨cfg.fields.length, r.errors.length⟩,
                  hasEndTime := true }

/-- The whole handler: the `try` body plus the top-level `catch` that
forces status `failed`, appends the exception to errors/logs, and records
an end time.  The browser close and the final persist of the `finally`
block do not change the record's fields. -/
def runTestModel (env : BrowserEnv) (url : String) (cfg : FormConfig)
    (ud : UserData) : TestResult :=
  match runBody env url cfg ud with
  | .ok r => r
  | .error (msg, r) =>
    { r with status := .failed,
             errors := r.errors ++ ["Test execution error: " ++ msg],
             logs := r.logs ++ ["Test failed with error: " ++ msg],
             hasEndTime := true }

/-! ## Claims C1 and C2: schedule stats -/

/-- Claim C1, counterexample: a run with terminal status `completed`
increments `stats.total` but neither `stats.success` nor `stats.failed`, so
the claim that any non-`success` terminal status increments `failed` (and
that exactly one of the two counters is incremented) is false on the code. -/
theorem claim1_counterexample :
    (updateScheduleStats (some createdScheduleStats) "completed").total =
      createdScheduleStats.total + 1 ∧
    ¬ ((updateScheduleStats (some createdScheduleStats) "completed").success =
         createdScheduleStats.success + 1 ∨
       (updateScheduleStats (some createdScheduleStats) "completed").failed =
         createdScheduleStats.failed + 1) := by decide

/-- Claim C1, amended: `updateScheduleWithResult` always increments
`stats.total` by one, increments `stats.success` exactly when the run's
status is `'success'`, and increments `stats.failed` exactly when the
status is `'failed'`; any other terminal status (such as `'completed'`)
increments neither counter. -/
theorem claim1_amended (stats : Stats) (status : String) :
    (updateScheduleStats (some stats) status).total = stats.total + 1 ∧
    (updateScheduleStats (some stats) status).success =
      stats.success + (if status = "success" then 1 else 0) ∧
    (updateScheduleStats (some stats) status).failed =
      stats.failed + (if status = "failed" then 1 else 0) := by
  unfold updateScheduleStats
  by_cases h1 : status = "success" <;> by_cases h2 : status = "failed" <;>
    simp_all

/-- Claim C2, counterexample: the invariant
`stats.total == stats.success + stats.failed` holds at creation but is
broken by recording a run whose terminal status is `completed`. -/
theorem claim2_counterexample :
    createdScheduleStats.total =
      createdScheduleStats.success + createdScheduleStats.failed ∧
    ¬ ((updateScheduleStats (some createdScheduleStats) "completed").total =
       (updateScheduleStats (some createdScheduleStats) "completed").success +
       (updateScheduleStats (some createdScheduleStats) "completed").failed) := by
  decide

/-- Claim C2, amended: creation establishes
`stats.total = stats.success + stats.failed`; recording a run completion
preserves the weaker invariant `stats.success + stats.failed ≤ stats.total`,
preserves equality exactly when the run's status is `'success'` or
`'failed'`, and for any other status leaves `total` exceeding
`success + failed` by one more than before. -/
theorem claim2_amended :
    (createdScheduleStats.total =
      createdScheduleStats.success + createdScheduleStats.failed) ∧
    (∀ (s : Stats) (status : String),
      s.success + s.failed ≤ s.total →
      (updateScheduleStats (some s) status).success +
          (updateScheduleStats (some s) status).failed ≤
        (updateScheduleStats (some s) status).total) ∧
    (∀ (s : Stats) (status : String),
      s.total = s.success + s.failed →
      status = "success" ∨ status = "failed" →
      (updateScheduleStats (some s) status).total =
        (updateScheduleStats (some s) status).success +
          (updateScheduleStats (some s) status).failed) ∧
    (∀ (s : Stats) (status : String),
      status ≠ "success" → status ≠ "failed" →
      (updateScheduleStats (some s) status).total = s.total + 1 ∧
      (updateScheduleStats (some s) status).success +
          (updateScheduleStats (some s) status).failed =
        s.success + s.failed) := by
  refine ⟨by decide, ?_, ?_, ?_⟩
  · intro s status h
    unfold updateScheduleStats
    by_cases h1 : status = "success" <;> by_cases h2 : status = "failed" <;>
      simp_all <;> omega
  · intro s status h hor
    unfold updateScheduleStats
    rcases hor with h1 | h1 <;> subst h1 <;> simp <;> omega
  · intro s status h1 h2
    unfold updateScheduleStats
    simp_all

/-- Claim C2 amended, witness: the preservation parts applied at the
creation stats and a `success` run. -/
theorem claim2_amended_witness :
    ((0 : Nat) + 0 ≤ 0 ∧
      (updateScheduleStats (some ⟨0, 0, 0⟩) "success").success +
          (updateScheduleStats (some ⟨0, 0, 0⟩) "success").failed ≤
        (updateScheduleStats (some ⟨0, 0, 0⟩) "success").total) ∧
    ("completed" ≠ "success" ∧
      (updateScheduleStats (some ⟨2, 1, 1⟩) "completed").total = 2 + 1 ∧
      (updateScheduleStats (some ⟨2, 1, 1⟩) "completed").success +
          (updateScheduleStats (some ⟨2, 1, 1⟩) "completed").failed = 1 + 1) :=
  ⟨⟨by decide, claim2_amended.2.1 ⟨0, 0, 0⟩ "success" (by decide)⟩,
   ⟨by decide, claim2_amended.2.2.2 ⟨2, 1, 1⟩ "completed" (by decide) (by decide)⟩⟩

/-! ## Claim C4: cron validation -/

/-- Claim C4, counterexample: `isValidCronExpression` accepts
`"0 0 ? * ? *"` although both the day-of-month and the day-of-week field
equal `'?'` — the code only rejects when neither is `'?'`, so "accepts only
expressions where exactly one of the two equals `'?'`" is false. -/
theorem claim4_counterexample :
    isValidCronExpression "0 0 ? * ? *" = true ∧
    (splitChar ' ' ("0 0 ? * ? *").toList).getD 2 [] = ['?'] ∧
    (splitChar ' ' ("0 0 ? * ? *").toList).getD 4 [] = ['?'] := by decide

/-- Claim C4, amended: every accepted expression splits (on `' '`) into
exactly 6 fields and has at least one of field 2 (day-of-month) / field 4
(day-of-week) equal to `'?'`; equivalently the function returns false for
≠6 fields and returns false when neither of the two equals `'?'` — but an
expression where both equal `'?'` is accepted. -/
theorem claim4_amended (s : String) (h : isValidCronExpression s = true) :
    (splitChar ' ' s.toList).length = 6 ∧
    ((splitChar ' ' s.toList).getD 2 [] = ['?'] ∨
     (splitChar ' ' s.toList).getD 4 [] = ['?']) := by
  simp only [isValidCronExpression] at h
  split at h
  · exact absurd h (by simp)
  · split at h
    · exact absurd h (by simp)
    · split at h
      · exact absurd h (by simp)
      · rename_i hlen hpat hq
        refine ⟨by omega, ?_⟩
        simp only [Bool.and_eq_true, decide_eq_true_eq, ne_eq] at hq
        tauto

/-- Claim C4 amended, witness: the amended statement at the valid weekly
expression `"0 0 ? * MON *"`. -/
theorem claim4_amended_witness :
    isValidCronExpression "0 0 ? * MON *" = true ∧
    ((splitChar ' ' ("0 0 ? * MON *").toList).length = 6 ∧
     ((splitChar ' ' ("0 0 ? * MON *").toList).getD 2 [] = ['?'] ∨
      (splitChar ' ' ("0 0 ? * MON *").toList).getD 4 [] = ['?'])) :=
  ⟨by decide, claim4_amended "0 0 ? * MON *" (by decide)⟩

/-! ## Claim C10: field value resolution -/

/-- Claim C10: the fill value is `userData[field.name]` only when that
value is truthy, otherwise `field.defaultValue` — so an explicitly supplied
falsy value (empty string, `false`, `0`) is replaced by the configured
default, and a checkbox explicitly set to `false` with `defaultValue` true
is checked rather than unchecked. -/
theorem claim10_value_resolution :
    (∀ (ud : UserData) (f : FormField) (v : JsValue),
      lookupUD ud f.name = some v → truthy (some v) = false →
      resolveFieldValue ud f = f.defaultValue) ∧
    (∀ (ud : UserData) (f : FormField),
      truthy (lookupUD ud f.name) = true →
      resolveFieldValue ud f = lookupUD ud f.name) ∧
    (∀ (ud : UserData) (f : FormField),
      f.fieldType = "checkbox" →
      lookupUD ud f.name = some (JsValue.bool false) →
      f.defaultValue = some (JsValue.bool true) →
      fieldAction f (resolveFieldValue ud f) = PageAction.check f.selector) := by
  refine ⟨?_, ?_, ?_⟩
  · intro ud f v hl ht
    unfold resolveFieldValue
    simp [hl, ht]
  · intro ud f ht
    unfold resolveFieldValue
    simp [ht]
  · intro ud f hty hl hd
    unfold resolveFieldValue fieldAction
    simp [hl, hd, hty, truthy]

/-- Claim C10, witness: a checkbox field named `sub` with default `true`,
and user data explicitly supplying `false` for it, resolves to the default
and is checked. -/
theorem claim10_value_resolution_witness :
    (lookupUD [("sub", JsValue.bool false)] "sub" = some (JsValue.bool false) ∧
     truthy (some (JsValue.bool false)) = false) ∧
    resolveFieldValue [("sub", JsValue.bool false)]
        ⟨"sub", "checkbox", "#sub", false, some (JsValue.bool true)⟩ =
      some (JsValue.bool true) ∧
    fieldAction ⟨"sub", "checkbox", "#sub", false, some (JsValue.bool true)⟩
        (resolveFieldValue [("sub", JsValue.bool false)]
          ⟨"sub", "checkbox", "#sub", false, some (JsValue.bool true)⟩) =
      PageAction.check "#sub" :=
  ⟨⟨by decide, by decide⟩,
   by
    have h1 := claim10_value_resolution.1 [("sub", JsValue.bool false)]
      ⟨"sub", "checkbox", "#sub", false, some (JsValue.bool true)⟩
      (JsValue.bool false) (by decide) (by decide)
    have h2 := claim10_value_resolution.2.2 [("sub", JsValue.bool false)]
      ⟨"sub", "checkbox", "#sub", false, some (JsValue.bool true)⟩
      (by decide) (by decide) (by decide)
    exact ⟨by simpa using h1, h2⟩⟩

/-! ## Claims C6 and C7: next-run-time estimation -/

/-- Setting the time of day to an in-range value keeps the civil day. -/
theorem setHours_inRange (d : Date) (h m : Int) (h0 : 0 ≤ h * 60 + m)
    (h1 : (h * 60 + m) * 60000 < 86400000) :
    d.setHours h m = ⟨d.day, (h * 60 + m) * 60000⟩ := by
  unfold Date.setHours Date.ofMs
  have h2 : 0 ≤ (h * 60 + m) * 60000 := by positivity
  congr 1 <;> omega

/-- Claim C6: for frequency `daily`, `calculateNextRunTime` returns today
at the (hour, minute) parsed back out of the cron string when that moment
is strictly after the reference instant, and otherwise the same wall-clock
time advanced by one day. -/
theorem claim6_daily (cron : String) (now : Date) (minute hour : Nat)
    (hw : containsSub "cron(".toList cron.toList = true)
    (hm : ((splitChar ' ' (removeFirst ")".toList
        (removeFirst "cron(".toList cron.toList))).get? 0).bind parseIntJs =
      some minute)
    (hh : ((splitChar ' ' (removeFirst ")".toList
        (removeFirst "cron(".toList cron.toList))).get? 1).bind parseIntJs =
      some hour)
    (hhb : hour < 24) (hmb : minute < 60) :
    calculateNextRunTime cron "daily" now =
      some (if now.toMs < (Date.mk now.day (((hour : Int) * 60 + minute) * 60000)).toMs
            then Date.mk now.day (((hour : Int) * 60 + minute) * 60000)
            else Date.mk (now.day + 1) (((hour : Int) * 60 + minute) * 60000)) := by
  have hb0 : (0 : Int) ≤ (hour : Int) * 60 + minute := by positivity
  have hb1 : ((hour : Int) * 60 + minute) * 60000 < 86400000 := by
    have h1 : (hour : Int) ≤ 23 := by exact_mod_cast Nat.lt_succ_iff.mp hhb
    have h2 : (minute : Int) ≤ 59 := by exact_mod_cast Nat.lt_succ_iff.mp hmb
    nlinarith
  have hs := setHours_inRange now hour minute hb0 hb1
  simp only [calculateNextRunTime, hw, hm, hh, String.reduceEq, reduceIte]
  rw [hs]
  simp only [Date.addDays, Date.toMs]
  split <;> rename_i hcond
  · rw [if_neg (by omega)]
  · rw [if_pos (by omega)]

/-- Claim C6, witness: with cron minute 0 / hour 8, a reference instant of
2025-01-01T09:00 yields 2025-01-02T08:00 (today's 8:00 already passed), and
2025-01-01T05:00 yields 2025-01-01T08:00. -/
theorem claim6_daily_witness :
    containsSub "cron(".toList ("cron(0 8 * * ? *)").toList = true ∧
    calculateNextRunTime "cron(0 8 * * ? *)" "daily"
        ⟨daysFromCivil 2025 1 1, 9 * 3600000⟩ =
      some ⟨daysFromCivil 2025 1 2, 8 * 3600000⟩ ∧
    calculateNextRunTime "cron(0 8 * * ? *)" "daily"
        ⟨daysFromCivil 2025 1 1, 5 * 3600000⟩ =
      some ⟨daysFromCivil 2025 1 1, 8 * 3600000⟩ :=
  ⟨by decide,
   (claim6_daily "cron(0 8 * * ? *)" ⟨daysFromCivil 2025 1 1, 9 * 3600000⟩ 0 8
      (by decide) (by decide) (by decide) (by decide) (by decide)).trans
     (by decide),
   (claim6_daily "cron(0 8 * * ? *)" ⟨daysFromCivil 2025 1 1, 5 * 3600000⟩ 0 8
      (by decide) (by decide) (by decide) (by decide) (by decide)).trans
     (by decide)⟩

/-- Claim C7: for frequency `weekly`, `calculateNextRunTime` advances by
between 1 and 7 days to a Monday, at the (hour, minute) parsed from the
cron string; when the reference day is itself a Monday the advance is a
full 7 days. -/
theorem claim7_weekly (cron : String) (now : Date) (minute hour : Nat)
    (hw : containsSub "cron(".toList cron.toList = true)
    (hm : ((splitChar ' ' (removeFirst ")".toList
        (removeFirst "cron(".toList cron.toList))).get? 0).bind parseIntJs =
      some minute)
    (hh : ((splitChar ' ' (removeFirst ")".toList
        (removeFirst "cron(".toList cron.toList))).get? 1).bind parseIntJs =
      some hour)
    (hhb : hour < 24) (hmb : minute < 60) :
    ∃ delta : Int,
      calculateNextRunTime cron "weekly" now =
        some ⟨now.day + delta, ((hour : Int) * 60 + minute) * 60000⟩ ∧
      1 ≤ delta ∧ delta ≤ 7 ∧
      (now.day + delta + 4) % 7 = 1 ∧
      ((now.day + 4) % 7 = 1 → delta = 7) := by
  have hb0 : (0 : Int) ≤ (hour : Int) * 60 + minute := by positivity
  have hb1 : ((hour : Int) * 60 + minute) * 60000 < 86400000 := by
    have h1 : (hour : Int) ≤ 23 := by exact_mod_cast Nat.lt_succ_iff.mp hhb
    have h2 : (minute : Int) ≤ 59 := by exact_mod_cast Nat.lt_succ_iff.mp hmb
    nlinarith
  refine ⟨if 1 - now.getDay ≤ 0 then 7 + (1 - now.getDay) else 1 - now.getDay,
    ?_, ?_, ?_, ?_, ?_⟩
  · simp only [calculateNextRunTime, hw, hm, hh, String.reduceEq, reduceIte]
    rw [setHours_inRange _ _ _ hb0 hb1]
    simp only [Date.addDays]
  · unfold Date.getDay
    split <;> omega
  · unfold Date.getDay
    split <;> omega
  · unfold Date.getDay
    split <;> omega
  · unfold Date.getDay
    intro hmon
    split <;> omega

/-- Claim C7, witness: from Wednesday 2025-01-01 the weekly estimate lands
5 days later on Monday 2025-01-06, and from Monday 2025-01-06 it advances a
full 7 days. -/
theorem claim7_weekly_witness :
    containsSub "cron(".toList ("cron(30 9 ? * MON *)").toList = true ∧
    (∃ delta : Int,
      calculateNextRunTime "cron(30 9 ? * MON *)" "weekly"
          ⟨daysFromCivil 2025 1 1, 0⟩ =
        some ⟨daysFromCivil 2025 1 1 + delta, ((9 : Int) * 60 + 30) * 60000⟩ ∧
      1 ≤ delta ∧ delta ≤ 7 ∧
      (daysFromCivil 2025 1 1 + delta + 4) % 7 = 1 ∧
      ((daysFromCivil 2025 1 1 + 4) % 7 = 1 → delta = 7)) ∧
    (∃ delta : Int,
      calculateNextRunTime "cron(30 9 ? * MON *)" "weekly"
          ⟨daysFromCivil 2025 1 6, 0⟩ =
        some ⟨daysFromCivil 2025 1 6 + delta, ((9 : Int) * 60 + 30) * 60000⟩ ∧
      1 ≤ delta ∧ delta ≤ 7 ∧
      (daysFromCivil 2025 1 6 + delta + 4) % 7 = 1 ∧
      ((daysFromCivil 2025 1 6 + 4) % 7 = 1 → delta = 7)) :=
  ⟨by decide,
   claim7_weekly "cron(30 9 ? * MON *)" ⟨daysFromCivil 2025 1 1, 0⟩ 30 9
     (by decide) (by decide) (by decide) (by decide) (by decide),
   claim7_weekly "cron(30 9 ? * MON *)" ⟨daysFromCivil 2025 1 6, 0⟩ 30 9
     (by decide) (by decide) (by decide) (by decide) (by decide)⟩

/-! ## Claim C5: schedule creation and the timer rule -/

/-- Claim C5: creating a schedule with `active = false` never issues an
EventBridge `putRule` call (under any environment, including failing
ones); creating with `active = true`, valid input and succeeding external
calls stores a schedule whose `ruleArn` is set and whose `nextRunTime` is
non-null. -/
theorem claim5_create (input : ScheduleInput) (env : AwsEnv) (now : Date) :
    (input.active = false →
      AwsCall.putRule ∉ (createScheduleModel input env now).calls) ∧
    (∀ t : Date, input.active = true →
      (truthyStr input.name && truthyStr input.url && input.hasFormConfig &&
        input.hasUserData && truthyStr input.frequency) = true →
      ¬(input.frequency.getD "" = "custom" ∧ input.customCronExpression = none) →
      isValidFrequency (input.frequency.getD "") input.customCronExpression = true →
      env.putItemOk = true → env.putRuleOk = true → env.putTargetsOk = true →
      env.updateRuleArnOk = true → env.updateNextRunOk = true →
      calculateNextRunTime
          (getCronExpression (input.frequency.getD "") input.customCronExpression
            input.specificTime) (input.frequency.getD "") now = some t →
      (createScheduleModel input env now).statusCode = 201 ∧
      ∃ sched, (createScheduleModel input env now).stored = some sched ∧
        sched.ruleArn = some "form-test-schedule-rule-arn" ∧
        sched.nextRunTime = some t) := by
  constructor
  · intro ha
    simp only [createScheduleModel, ha]
    split
    · decide
    split
    · decide
    split
    · decide
    split
    · decide
    · simp
  · intro t ha hval hnc hfreq h1 h2 h3 h4 h5 hcalc
    simp [createScheduleModel, ha, hval, hnc, hfreq, h1, h2, h3, h4, h5, hcalc]

/-- Claim C5, witness: a valid hourly schedule created with `active = true`
in an all-succeeding environment gets `ruleArn` and `nextRunTime`, and the
same input with `active = false` issues no `putRule`. -/
theorem claim5_create_witness :
    (AwsCall.putRule ∉
      (createScheduleModel
        ⟨some "s", some "https://x.test", true, true, some "hourly", none, none,
          false⟩
        ⟨true, true, true, true, true⟩ ⟨20089, 0⟩).calls) ∧
    ((createScheduleModel
        ⟨some "s", some "https://x.test", true, true, some "hourly", none, none,
          true⟩
        ⟨true, true, true, true, true⟩ ⟨20089, 0⟩).statusCode = 201 ∧
      ∃ sched,
        (createScheduleModel
          ⟨some "s", some "https://x.test", true, true, some "hourly", none, none,
            true⟩
          ⟨true, true, true, true, true⟩ ⟨20089, 0⟩).stored = some sched ∧
        sched.ruleArn = some "form-test-schedule-rule-arn" ∧
        sched.nextRunTime = some ⟨20089, 3600000⟩) :=
  ⟨(claim5_create
      ⟨some "s", some "https://x.test", true, true, some "hourly", none, none,
        false⟩
      ⟨true, true, true, true, true⟩ ⟨20089, 0⟩).1 (by decide),
   (claim5_create
      ⟨some "s", some "https://x.test", true, true, some "hourly", none, none,
        true⟩
      ⟨true, true, true, true, true⟩ ⟨20089, 0⟩).2 ⟨20089, 3600000⟩
     (by decide) (by decide) (by decide) (by decide) (by decide) (by decide)
     (by decide) (by decide) (by decide) (by decide)⟩

/-! ## Claim C8: schedule deletion survives rule-cleanup failures -/

/-- Claim C8: whenever the record store's `get` and `delete` succeed, the
delete handler removes the schedule record and reports 200, regardless of
whether the EventBridge cleanup (`listTargetsByRule`, `removeTargets`,
`deleteRule`) succeeds or throws, and regardless of the schedule's
`ruleArn`. -/
theorem claim8_delete (id : String) (sched : Schedule) (env : DeleteEnv)
    (hget : env.getOk = true) (hdel : env.deleteItemOk = true) :
    (deleteScheduleModel (some id) (some sched) env).recordDeleted = true ∧
    (deleteScheduleModel (some id) (some sched) env).statusCode = 200 := by
  unfold deleteScheduleModel
  simp [hget, hdel]

/-- Claim C8, witness: deleting a schedule with a linked rule while the
`deleteRule` call throws still removes the record and reports 200. -/
theorem claim8_delete_witness :
    (deleteScheduleModel (some "id-1")
        (some { name := "s", url := "u", frequency := "daily",
                cronExpression := "cron(0 8 * * ? *)", active := true,
                ruleArn := some "arn" })
        ⟨true, true, true, false, true, ["t1"]⟩).recordDeleted = true ∧
    (deleteScheduleModel (some "id-1")
        (some { name := "s", url := "u", frequency := "daily",
                cronExpression := "cron(0 8 * * ? *)", active := true,
                ruleArn := some "arn" })
        ⟨true, true, true, false, true, ["t1"]⟩).statusCode = 200 :=
  claim8_delete "id-1"
    { name := "s", url := "u", frequency := "daily",
      cronExpression := "cron(0 8 * * ? *)", active := true,
      ruleArn := some "arn" }
    ⟨true, true, true, false, true, ["t1"]⟩ (by decide) (by decide)

/-! ## Claims C3 and C9: the run executor

The two lemmas below capture the per-field try/catch: when screenshots
succeed, a field failure is recovered locally, the loop continues, and the
accumulated errors/logs only grow. -/

theorem processField_ok (env : BrowserEnv) (ud : UserData)
    (hshot : ∀ s, env.screenshotOk s = true) (r : TestResult) (f : FormField) :
    ∃ r1, processField env ud r f = Except.ok r1 ∧
      r1.status = r.status ∧
      (∃ tE, r1.errors = r.errors ++ tE) ∧
      (∃ tL, r1.logs = r.logs ++ ("Processing field: " ++ f.name) :: tL) ∧
      (f.required = true → truthy (resolveFieldValue ud f) = false →
        ("Error processing field " ++ f.name ++ ": " ++
          ("Missing required field: " ++ f.name)) ∈ r1.errors) := by
  simp only [processField]
  by_cases hreq : (!truthy (resolveFieldValue ud f) && f.required) = true
  · rw [if_pos hreq]
    simp only [shoot, hshot, if_true]
    refine ⟨_, rfl, rfl, ⟨_, rfl⟩,
      ⟨["Failed to process field: " ++ f.name ++ " - " ++
          ("Missing required field: " ++ f.name)], by simp⟩, fun _ _ => ?_⟩
    simp
  · rw [if_neg hreq]
    by_cases hact : (actionIsPageCall (fieldAction f (resolveFieldValue ud f)) &&
        !env.actionOk f.name) = true
    · rw [if_pos hact]
      simp only [shoot, hshot, if_true]
      refine ⟨_, rfl, rfl, ⟨_, rfl⟩,
        ⟨["Failed to process field: " ++ f.name ++ " - " ++
            ("page action failed on " ++ f.selector)], by simp⟩, fun h1 h2 => ?_⟩
      exact absurd (by simp [h1, h2]) hreq
    · rw [if_neg hact]
      refine ⟨_, rfl, rfl, ⟨[], by simp⟩,
        ⟨actionLogs f (fieldAction f (resolveFieldValue ud f)), by simp⟩,
        fun h1 h2 => ?_⟩
      exact absurd (by simp [h1, h2]) hreq

theorem processFields_ok (env : BrowserEnv) (ud : UserData)
    (hshot : ∀ s, env.screenshotOk s = true) (fs : List FormField) :
    ∀ r : TestResult,
      ∃ r1, processFields env ud r fs = Except.ok r1 ∧
        r1.status = r.status ∧
        (∃ tE, r1.errors = r.errors ++ tE) ∧
        (∃ tL, r1.logs = r.logs ++ tL) ∧
        (∀ f, f ∈ fs → ("Processing field: " ++ f.name) ∈ r1.logs) ∧
        (∀ f, f ∈ fs → f.required = true →
          truthy (resolveFieldValue ud f) = false →
          ("Error processing field " ++ f.name ++ ": " ++
            ("Missing required field: " ++ f.name)) ∈ r1.errors) := by
  induction fs with
  | nil =>
    intro r
    exact ⟨r, rfl, rfl, ⟨[], by simp⟩, ⟨[], by simp⟩, by simp, by simp⟩
  | cons f fs ih =>
    intro r
    obtain ⟨r1, h1, hst1, ⟨tE1, hE1⟩, ⟨tL1, hL1⟩, hmiss1⟩ :=
      processField_ok env ud hshot r f
    obtain ⟨r2, h2, hst2, ⟨tE2, hE2⟩, ⟨tL2, hL2⟩, hproc2, hmiss2⟩ := ih r1
    refine ⟨r2, ?_, ?_, ?_, ?_, ?_, ?_⟩
    · simp [processFields, h1, h2]
    · rw [hst2, hst1]
    · exact ⟨tE1 ++ tE2, by rw [hE2, hE1, List.append_assoc]⟩
    · exact ⟨("Processing field: " ++ f.name) :: (tL1 ++ tL2),
        by rw [hL2, hL1]; simp⟩
    · intro g hg
      rcases List.mem_cons.mp hg with hg | hg
      · subst hg
        rw [hL2]
        exact List.mem_append_left _ (by rw [hL1]; simp)
      · exact hproc2 g hg
    · intro g hg hr ht
      rcases List.mem_cons.mp hg with hg | hg
      · subst hg
        rw [hE2]
        exact List.mem_append_left _ (hmiss1 hr ht)
      · exact hmiss2 g hg hr ht

/-- Claim C3, counterexample: a run without a `successIndicator` whose
network-idle wait times out ends with status `failed` — so the
no-indicator path CAN produce `failed`, contradicting the claim that it
unconditionally sets `completed`. -/
theorem claim3_counterexample :
    (FormConfig.mk [] "#go" none).successIndicator = none ∧
    (runTestModel ⟨true, fun _ => true, fun _ => true, true, true, false⟩
        "https://x.test" (FormConfig.mk [] "#go" none) []).status =
      RunStatus.failed :=
  ⟨rfl, by decide⟩

/-- Claim C3, amended: without a `successIndicator` the run waits for
network idle (bounded 10s); when that wait (and the surrounding steps)
succeeds the status is unconditionally `completed`, but a timeout of the
wait escapes to the top-level catch — it is not wrapped in a local
try/catch — and the run then ends `failed`. -/
theorem claim3_no_indicator (env : BrowserEnv) (url : String)
    (cfg : FormConfig) (ud : UserData)
    (hsi : cfg.successIndicator = none)
    (hgoto : env.gotoOk = true)
    (hshot : ∀ s, env.screenshotOk s = true)
    (hclick : env.clickOk = true) :
    (env.networkIdleOk = true →
      (runTestModel env url cfg ud).status = RunStatus.completed) ∧
    (env.networkIdleOk = false →
      (runTestModel env url cfg ud).status = RunStatus.failed) := by
  obtain ⟨r1, h1, hst1, hE1, hL1, hp1, hm1⟩ :=
    processFields_ok env ud hshot cfg.fields
      ⟨RunStatus.running, [], ["Test started", "Navigating to " ++ url,
        "Took initial screenshot"], [("initial", "initial.png")], none, false⟩
  constructor <;> intro hni <;>
    simp [runTestModel, runBody, hgoto, hshot, shoot, h1, hclick, submitWait,
      hsi, hni, hst1]

/-- Claim C3 amended, witness: with every wait succeeding the run ends
`completed`. -/
theorem claim3_no_indicator_witness :
    (FormConfig.mk [] "#go" none).successIndicator = none ∧
    (runTestModel ⟨true, fun _ => true, fun _ => true, true, true, true⟩
        "https://x.test" (FormConfig.mk [] "#go" none) []).status =
      RunStatus.completed :=
  ⟨rfl,
   (claim3_no_indicator ⟨true, fun _ => true, fun _ => true, true, true, true⟩
      "https://x.test" (FormConfig.mk [] "#go" none) [] rfl rfl (fun _ => rfl)
      rfl).1 rfl⟩

/-- Claim C9: a required field with no supplied value and no default makes
the run record an error entry naming the field (the catch-block message),
processing continues — the `Processing field` log entry appears for every
configured field — and the run still ends in a terminal state (`success`,
`failed` or `completed`), never `running`. -/
theorem claim9_required_missing (env : BrowserEnv) (url : String)
    (cfg : FormConfig) (ud : UserData) (f : FormField)
    (hf : f ∈ cfg.fields)
    (hreq : f.required = true)
    (hud : lookupUD ud f.name = none)
    (hdef : f.defaultValue = none)
    (hgoto : env.gotoOk = true)
    (hshot : ∀ s, env.screenshotOk s = true) :
    ("Error processing field " ++ f.name ++ ": " ++
      ("Missing required field: " ++ f.name)) ∈
        (runTestModel env url cfg ud).errors ∧
    (∀ g, g ∈ cfg.fields →
      ("Processing field: " ++ g.name) ∈ (runTestModel env url cfg ud).logs) ∧
    ((runTestModel env url cfg ud).status = RunStatus.success ∨
     (runTestModel env url cfg ud).status = RunStatus.failed ∨
     (runTestModel env url cfg ud).status = RunStatus.completed) := by
  have hres : truthy (resolveFieldValue ud f) = false := by
    simp [resolveFieldValue, hud, hdef, truthy]
  obtain ⟨r1, h1, hst1, ⟨tE1, hE1⟩, ⟨tL1, hL1⟩, hp1, hm1⟩ :=
    processFields_ok env ud hshot cfg.fields
      ⟨RunStatus.running, [], ["Test started", "Navigating to " ++ url,
        "Took initial screenshot"], [("initial", "initial.png")], none, false⟩
  have herr := hm1 f hf hreq hres
  refine ⟨?_, ?_, ?_⟩
  · rcases hsi : cfg.successIndicator with _ | si <;>
      by_cases hclick : env.clickOk = true <;>
      by_cases hsa : env.successAppears = true <;>
      by_cases hni : env.networkIdleOk = true <;>
      simp [runTestModel, runBody, hgoto, hshot, shoot, h1, submitWait, hsi,
        hclick, hsa, hni, herr]
  · intro g hg
    have hpg := hp1 g hg
    rcases hsi : cfg.successIndicator with _ | si <;>
      by_cases hclick : env.clickOk = true <;>
      by_cases hsa : env.successAppears = true <;>
      by_cases hni : env.networkIdleOk = true <;>
      simp [runTestModel, runBody, hgoto, hshot, shoot, h1, submitWait, hsi,
        hclick, hsa, hni, hpg]
  · rcases hsi : cfg.successIndicator with _ | si <;>
      by_cases hclick : env.clickOk = true <;>
      by_cases hsa : env.successAppears = true <;>
      by_cases hni : env.networkIdleOk = true <;>
      simp [runTestModel, runBody, hgoto, hshot, shoot, h1, submitWait, hsi,
        hclick, hsa, hni]

/-- Claim C9, witness: a required `email` field with no user data and no
default, followed by an optional `zip` field, in an all-succeeding
environment. -/
theorem claim9_required_missing_witness :
    (FormField.mk "email" "email" "#email" true none ∈
      [FormField.mk "email" "email" "#email" true none,
       FormField.mk "zip" "text" "#zip" false (some (JsValue.str "00100"))]) ∧
    ("Error processing field " ++ "email" ++ ": " ++
      ("Missing required field: " ++ "email")) ∈
        (runTestModel ⟨true, fun _ => true, fun _ => true, true, true, true⟩
          "https://x.test"
          (FormConfig.mk
            [FormField.mk "email" "email" "#email" true none,
             FormField.mk "zip" "text" "#zip" false (some (JsValue.str "00100"))]
            "#go" none) []).errors ∧
    ((runTestModel ⟨true, fun _ => true, fun _ => true, true, true, true⟩
        "https://x.test"
        (FormConfig.mk
          [FormField.mk "email" "email" "#email" true none,
           FormField.mk "zip" "text" "#zip" false (some (JsValue.str "00100"))]
          "#go" none) []).status = RunStatus.success ∨
     (runTestModel ⟨true, fun _ => true, fun _ => true, true, true, true⟩
        "https://x.test"
        (FormConfig.mk
          [FormField.mk "email" "email" "#email" true none,
           FormField.mk "zip" "text" "#zip" false (some (JsValue.str "00100"))]
          "#go" none) []).status = RunStatus.failed ∨
     (runTestModel ⟨true, fun _ => true, fun _ => true, true, true, true⟩
        "https://x.test"
        (FormConfig.mk
          [FormField.mk "email" "email" "#email" true none,
           FormField.mk "zip" "text" "#zip" false (some (JsValue.str "00100"))]
          "#go" none) []).status = RunStatus.completed) := by
  have h := claim9_required_missing
    ⟨true, fun _ => true, fun _ => true, true, true, true⟩ "https://x.test"
    (FormConfig.mk
      [FormField.mk "email" "email" "#email" true none,
       FormField.mk "zip" "text" "#zip" false (some (JsValue.str "00100"))]
      "#go" none) [] (FormField.mk "email" "email" "#email" true none)
    (by decide) rfl rfl rfl rfl (fun _ => rfl)
  exact ⟨by decide, h.1, h.2.2⟩

end FormTesting
